import Mathlib

/-!
Shallow embedding of the rust-snake game (src/main.rs, with the Snake variant
of src/entities.rs for its saturating ammo gain). Machine f64 timers are
modelled as exact rationals: the code only subtracts, adds and compares them
with zero. Randomness (thread_rng) is modelled as an oracle: a pair of
streams, one of grid positions (results of Game::random_position) and one of
directions (results of random_direction), consumed in program order.
-/

namespace RustSnake

/-- Grid position, source type [i32; 2]; i32 arithmetic never overflows here,
so coordinates are modelled as integers. -/
abbrev Position := ℤ × ℤ

/-- Source constant SNAKE_MOVEMENT_COOLDOWN = 0.1. -/
def SNAKE_MOVEMENT_COOLDOWN : ℚ := 1/10

/-- Source constant BULLET_MOVEMENT_COOLDOWN = 0.07. -/
def BULLET_MOVEMENT_COOLDOWN : ℚ := 7/100

/-- Source constant ENEMY_MOVEMENT_COOLDOWN = 0.3. -/
def ENEMY_MOVEMENT_COOLDOWN : ℚ := 3/10

/-- Source constant TRAP_SPAWN_COOLDOWN = 5.0. -/
def TRAP_SPAWN_COOLDOWN : ℚ := 5

/-- Source constant MAX_AMMO = 5 (u32). -/
def MAX_AMMO : ℕ := 5

/-- Source constant GRID_SIZE = [32, 32]. -/
def GRID_SIZE : ℤ × ℤ := (32, 32)

/-- Four-way compass direction from the source enum Direction. -/
inductive Direction
  | Right
  | Left
  | Up
  | Down
deriving DecidableEq, Repr

/-- Direction::as_tuple, the unit displacement of a direction. -/
def Direction.as_tuple : Direction → ℤ × ℤ
  | .Right => (1, 0)
  | .Left => (-1, 0)
  | .Up => (0, -1)
  | .Down => (0, 1)

/-- Direction::opposite. -/
def Direction.opposite : Direction → Direction
  | .Right => .Left
  | .Left => .Right
  | .Up => .Down
  | .Down => .Up

/-- Oracle model of rand::thread_rng: a stream of positions feeding
Game::random_position and a stream of directions feeding random_direction. -/
structure Rng where
  pos : ℕ → Position
  dir : ℕ → Direction

/-- Consume the next random position from the oracle. -/
def Rng.nextPos (r : Rng) : Position × Rng :=
  (r.pos 0, ⟨fun n => r.pos (n + 1), r.dir⟩)

/-- Consume the next random direction from the oracle. -/
def Rng.nextDir (r : Rng) : Direction × Rng :=
  (r.dir 0, ⟨r.pos, fun n => r.dir (n + 1)⟩)

/-- Tag distinguishing the two Movement trait implementations,
RandomMovement and StaticMovement. -/
inductive MovementKind
  | randomKind
  | staticKind
deriving DecidableEq, Repr

/-- Common state of RandomMovement and StaticMovement: a countdown timer, a
direction and a cooldown. The trait object is modelled as this record plus
the kind tag. -/
structure Movement where
  kind : MovementKind
  timer : ℚ
  direction : Direction
  cooldown : ℚ
deriving DecidableEq, Repr

/-- RandomMovement::new. -/
def RandomMovement.new (direction : Direction) (cooldown : ℚ) : Movement :=
  ⟨.randomKind, 0, direction, cooldown⟩

/-- StaticMovement::new. -/
def StaticMovement.new (direction : Direction) (cooldown : ℚ) : Movement :=
  ⟨.staticKind, 0, direction, cooldown⟩

/-- Movement::apply of both implementations: decrement the timer by the
elapsed time; when it is below zero, replenish it by adding the cooldown and
emit a displacement (RandomMovement re-samples its direction first). -/
def Movement.apply (m : Movement) (elapsed_seconds : ℚ) (rng : Rng) :
    Option (ℤ × ℤ) × Movement × Rng :=
  let t := m.timer - elapsed_seconds
  if t < 0 then
    match m.kind with
    | .randomKind =>
      let d := rng.nextDir
      (some d.1.as_tuple,
        { m with timer := t + m.cooldown, direction := d.1 }, d.2)
    | .staticKind =>
      (some m.direction.as_tuple, { m with timer := t + m.cooldown }, rng)
  else
    (none, { m with timer := t }, rng)

/-- Entity from the source: a positioned grid object, optionally driven by a
movement strategy. The color field is render-only and omitted. -/
structure Entity where
  position : Position
  movement : Option Movement
deriving DecidableEq, Repr

/-- Entity::new_food. -/
def Entity.new_food (position : Position) : Entity :=
  ⟨position, none⟩

/-- Entity::new_bullet. -/
def Entity.new_bullet (position : Position) (direction : Direction) : Entity :=
  ⟨position, some (StaticMovement.new direction BULLET_MOVEMENT_COOLDOWN)⟩

/-- Entity::new_trap. -/
def Entity.new_trap (position : Position) : Entity :=
  ⟨position, none⟩

/-- Entity::new_enemy. -/
def Entity.new_enemy (position : Position) (direction : Direction) : Entity :=
  ⟨position, some (RandomMovement.new direction ENEMY_MOVEMENT_COOLDOWN)⟩

/-- Entity::default. -/
def Entity.defaultEntity : Entity :=
  ⟨(0, 0), none⟩

/-- Entity::update: if a movement strategy is present, apply it and add any
returned displacement to the position. -/
def Entity.update (e : Entity) (elapsed_seconds : ℚ) (rng : Rng) :
    Entity × Rng :=
  match e.movement with
  | none => (e, rng)
  | some m =>
    let a := m.apply elapsed_seconds rng
    match a.1 with
    | some d =>
      ({ position := (e.position.1 + d.1, e.position.2 + d.2),
         movement := some a.2.1 }, a.2.2)
    | none => ({ e with movement := some a.2.1 }, a.2.2)

/-- Snake from src/main.rs. The ammo field is u32 but is only ever changed by
a guarded increment below MAX_AMMO and a guarded decrement above zero, so it
is modelled as a natural number. -/
structure Snake where
  positions : List Position
  next_direction : Direction
  direction : Direction
  move_timer : ℚ
  ammo : ℕ
deriving DecidableEq, Repr

/-- Snake::new. -/
def Snake.new (position : Position) : Snake :=
  { positions := [position]
    next_direction := .Right
    direction := .Right
    move_timer := 0
    ammo := 0 }

/-- Snake::head: the last element of positions. The source panics on an empty
body; the embedding returns a junk default there, a case proved unreachable
for every reachable game state. -/
def Snake.head (s : Snake) : Position :=
  s.positions.getLastD (0, 0)

/-- Snake::self_collision: the head also occurs among the earlier segments
(positions without the last element). -/
def Snake.self_collision (s : Snake) : Bool :=
  decide (s.head ∈ s.positions.dropLast)

/-- Snake::try_set_direction: buffer the requested direction unless it is the
opposite of the current one. -/
def Snake.try_set_direction (s : Snake) (direction : Direction) : Snake :=
  if s.direction.opposite ≠ direction then
    { s with next_direction := direction }
  else s

/-- Snake::position_one_step_forward. -/
def Snake.position_one_step_forward (s : Snake) : Position :=
  (s.head.1 + s.direction.as_tuple.1, s.head.2 + s.direction.as_tuple.2)

/-- Snake::update: countdown with carry-over; on firing, commit the buffered
direction, append the new head, and report that a move happened. -/
def Snake.update (s : Snake) (elapsed_seconds : ℚ) : Snake × Bool :=
  let t := s.move_timer - elapsed_seconds
  if t < 0 then
    let s1 : Snake :=
      { s with move_timer := t + SNAKE_MOVEMENT_COOLDOWN,
               direction := s.next_direction }
    (⟨s1.positions ++ [s1.position_one_step_forward], s1.next_direction,
      s1.direction, s1.move_timer, s1.ammo⟩, true)
  else
    ({ s with move_timer := t }, false)

/-- Snake::try_shoot: with positive ammo, decrement it and return the cell one
step ahead of the head together with the facing direction; otherwise return
nothing and leave the snake unchanged. -/
def Snake.try_shoot (s : Snake) : Snake × Option (Position × Direction) :=
  if s.ammo > 0 then
    ({ s with ammo := s.ammo - 1 },
      some (s.position_one_step_forward, s.direction))
  else
    (s, none)

/-- Snake::gain_ammo of src/main.rs: increment ammo only while strictly below
MAX_AMMO. -/
def Snake.gain_ammo (s : Snake) : Snake :=
  if s.ammo < MAX_AMMO then { s with ammo := s.ammo + 1 } else s

/-- Game from src/main.rs, minus the render-only gl field. -/
structure Game where
  playing : Bool
  snake : Snake
  food : Entity
  bullet : Option Entity
  traps : List Entity
  trap_spawn_timer : ℚ
  enemy : Option Entity
deriving Repr

/-- Game::new. -/
def Game.new : Game :=
  { playing := true
    snake := Snake.new (0, 0)
    food := Entity.defaultEntity
    bullet := none
    traps := []
    trap_spawn_timer := 0
    enemy := none }

/-- Game::random_position, fed by the oracle stream. -/
def Game.random_position (rng : Rng) : Position × Rng :=
  rng.nextPos

/-- Game::set_start_state: the reset routine. Note that the source leaves
trap_spawn_timer untouched. -/
def Game.set_start_state (g : Game) (rng : Rng) : Game × Rng :=
  let fp := Game.random_position rng
  ({ g with
      playing := true
      snake := Snake.new (0, GRID_SIZE.2 / 2)
      food := Entity.new_food fp.1
      bullet := none
      traps := []
      enemy := some (Entity.new_enemy (GRID_SIZE.1 / 2, GRID_SIZE.2 / 2)
        Direction.Down) }, fp.2)

/-- Game::is_outside_grid. -/
def Game.is_outside_grid (position : Position) : Bool :=
  decide (position.1 < 0) || decide (GRID_SIZE.1 ≤ position.1) ||
    decide (position.2 < 0) || decide (GRID_SIZE.2 ≤ position.2)

/-- Game::on_game_over: clear all traps and stop playing. -/
def Game.on_game_over (g : Game) : Game :=
  { g with traps := [], playing := false }

/-- Disjunction guarding on_game_over in Game::update, evaluated with the
already-moved snake: head outside the grid, self collision, head on a trap, or
head on the enemy. -/
def Game.gameOverCond (g : Game) (head : Position) : Bool :=
  Game.is_outside_grid head || g.snake.self_collision ||
    g.traps.any (fun trap => decide (trap.position = head)) ||
    (g.enemy.map (fun e => decide (e.position = head))).getD false

/-- First block of Game::update: advance the enemy, if one exists. -/
def Game.enemyPhase (dt : ℚ) (g : Game) (rng : Rng) : Game × Rng :=
  match g.enemy with
  | none => (g, rng)
  | some e =>
    let e1 := e.update dt rng
    ({ g with enemy := some e1.1 }, e1.2)

/-- Second block of Game::update: advance the snake; when it moved, run the
game-over checks, then either eat the food (relocate it and gain ammo) or
trim the tail. -/
def Game.snakePhase (dt : ℚ) (g : Game) (rng : Rng) : Game × Rng :=
  let su := g.snake.update dt
  if su.2 then
    let head := su.1.head
    let g1 : Game := { g with snake := su.1 }
    let g2 : Game :=
      if Game.gameOverCond g1 head then Game.on_game_over g1 else g1
    if head = g2.food.position then
      let np := Game.random_position rng
      ({ g2 with food := { g2.food with position := np.1 },
                 snake := g2.snake.gain_ammo }, np.2)
    else
      ({ g2 with snake :=
          { g2.snake with positions := g2.snake.positions.eraseIdx 0 } }, rng)
  else
    ({ g with snake := su.1 }, rng)

/-- Third block of Game::update: advance the bullet, if one exists; food hit
by the bullet is relocated, and any trap sharing the bullet's cell is
removed. -/
def Game.bulletPhase (dt : ℚ) (g : Game) (rng : Rng) : Game × Rng :=
  match g.bullet with
  | none => (g, rng)
  | some b =>
    let b1 := b.update dt rng
    let fd :=
      if b1.1.position = g.food.position then
        let np := Game.random_position b1.2
        ({ g.food with position := np.1 }, np.2)
      else (g.food, b1.2)
    ({ g with bullet := some b1.1, food := fd.1,
              traps := g.traps.filter
                (fun trap => decide (trap.position ≠ b1.1.position)) }, fd.2)

/-- Fourth block of Game::update: trap spawn countdown with carry-over; on
firing, push a trap at a random position. -/
def Game.trapPhase (dt : ℚ) (g : Game) (rng : Rng) : Game × Rng :=
  let t := g.trap_spawn_timer - dt
  if t < 0 then
    let np := Game.random_position rng
    ({ g with trap_spawn_timer := t + TRAP_SPAWN_COOLDOWN,
              traps := g.traps ++ [Entity.new_trap np.1] }, np.2)
  else
    ({ g with trap_spawn_timer := t }, rng)

/-- Game::update: a no-op unless playing; otherwise the four blocks in source
order. -/
def Game.update (dt : ℚ) (g : Game) (rng : Rng) : Game × Rng :=
  if g.playing then
    let p1 := Game.enemyPhase dt g rng
    let p2 := Game.snakePhase dt p1.1 p1.2
    let p3 := Game.bulletPhase dt p2.1 p2.2
    Game.trapPhase dt p3.1 p3.2
  else (g, rng)

/-- Key presses reaching Game::handle_key_press; enter stands for
Key::Return, other for every key the game ignores. -/
inductive Key
  | up
  | down
  | left
  | right
  | space
  | enter
  | other
deriving DecidableEq, Repr

/-- Game::handle_key_press: while playing, arrows steer and space shoots;
after game over, enter restarts via set_start_state. -/
def Game.handle_key_press (key : Key) (g : Game) (rng : Rng) : Game × Rng :=
  if g.playing then
    match key with
    | .up => ({ g with snake := g.snake.try_set_direction .Up }, rng)
    | .down => ({ g with snake := g.snake.try_set_direction .Down }, rng)
    | .left => ({ g with snake := g.snake.try_set_direction .Left }, rng)
    | .right => ({ g with snake := g.snake.try_set_direction .Right }, rng)
    | .space =>
      let sh := g.snake.try_shoot
      match sh.2 with
      | some bd =>
        ({ g with snake := sh.1,
                  bullet := some (Entity.new_bullet bd.1 bd.2) }, rng)
      | none => ({ g with snake := sh.1 }, rng)
    | _ => (g, rng)
  else
    match key with
    | .enter => Game.set_start_state g rng
    | _ => (g, rng)

/-- States reachable from the start of main (Game::new followed by
set_start_state) through any sequence of update and handle_key_press calls. -/
inductive Reachable : Game → Prop
  | init (rng : Rng) : Reachable (Game.set_start_state Game.new rng).1
  | step_update (g : Game) (dt : ℚ) (rng : Rng) :
      Reachable g → Reachable (Game.update dt g rng).1
  | step_key (g : Game) (key : Key) (rng : Rng) :
      Reachable g → Reachable (Game.handle_key_press key g rng).1

end RustSnake

namespace RustSnakeEntities

open RustSnake (Position Direction)

/-- Snake from src/entities.rs, whose ammo gain is parameterised by an amount
and a per-snake max_ammo. Only the fields are shared with the main.rs snake;
gain_ammo differs. The u32 addition ammo + amount is modelled with the u32
wrap-around. -/
structure Snake where
  positions : List Position
  next_direction : Direction
  direction : Direction
  move_timer : ℚ
  ammo : ℕ
  max_ammo : ℕ
deriving DecidableEq, Repr

/-- Snake::new of src/entities.rs. -/
def Snake.new (position : Position) (max_ammo : ℕ) : Snake :=
  { positions := [position]
    next_direction := .Right
    direction := .Right
    move_timer := 0
    ammo := 0
    max_ammo := max_ammo }

/-- Snake::gain_ammo of src/entities.rs: saturating addition capped at
max_ammo. -/
def Snake.gain_ammo (s : Snake) (amount : ℕ) : Snake :=
  { s with ammo := min ((s.ammo + amount) % 2 ^ 32) s.max_ammo }

end RustSnakeEntities

namespace RustSnake

/-- Movement::apply leaves the position oracle untouched (it samples only
directions). -/
@[simp] lemma Movement.apply_pos_stream (m : Movement) (dt : ℚ) (rng : Rng) :
    (m.apply dt rng).2.2.pos = rng.pos := by
  unfold Movement.apply
  dsimp only
  split_ifs with h
  · cases m.kind <;> rfl
  · rfl

/-- Entity::update leaves the position oracle untouched. -/
@[simp] lemma Entity.update_pos_stream (e : Entity) (dt : ℚ) (rng : Rng) :
    (e.update dt rng).2.pos = rng.pos := by
  unfold Entity.update
  cases e.movement with
  | none => rfl
  | some m =>
    dsimp only
    cases ha : (m.apply dt rng).1 <;>
      simp [ha, Movement.apply_pos_stream]

/-- The enemy phase only touches the enemy slot: snake preserved. -/
@[simp] lemma Game.enemyPhase_snake (dt : ℚ) (g : Game) (rng : Rng) :
    (Game.enemyPhase dt g rng).1.snake = g.snake := by
  unfold Game.enemyPhase; cases g.enemy <;> rfl

/-- The enemy phase only touches the enemy slot: food preserved. -/
@[simp] lemma Game.enemyPhase_food (dt : ℚ) (g : Game) (rng : Rng) :
    (Game.enemyPhase dt g rng).1.food = g.food := by
  unfold Game.enemyPhase; cases g.enemy <;> rfl

/-- The enemy phase only touches the enemy slot: bullet preserved. -/
@[simp] lemma Game.enemyPhase_bullet (dt : ℚ) (g : Game) (rng : Rng) :
    (Game.enemyPhase dt g rng).1.bullet = g.bullet := by
  unfold Game.enemyPhase; cases g.enemy <;> rfl

/-- The enemy phase only touches the enemy slot: traps preserved. -/
@[simp] lemma Game.enemyPhase_traps (dt : ℚ) (g : Game) (rng : Rng) :
    (Game.enemyPhase dt g rng).1.traps = g.traps := by
  unfold Game.enemyPhase; cases g.enemy <;> rfl

/-- The enemy phase only touches the enemy slot: trap timer preserved. -/
@[simp] lemma Game.enemyPhase_trap_timer (dt : ℚ) (g : Game) (rng : Rng) :
    (Game.enemyPhase dt g rng).1.trap_spawn_timer = g.trap_spawn_timer := by
  unfold Game.enemyPhase; cases g.enemy <;> rfl

/-- The enemy phase only touches the enemy slot: playing preserved. -/
@[simp] lemma Game.enemyPhase_playing (dt : ℚ) (g : Game) (rng : Rng) :
    (Game.enemyPhase dt g rng).1.playing = g.playing := by
  unfold Game.enemyPhase; cases g.enemy <;> rfl

/-- The enemy phase samples only directions: position oracle preserved. -/
@[simp] lemma Game.enemyPhase_pos_stream (dt : ℚ) (g : Game) (rng : Rng) :
    (Game.enemyPhase dt g rng).2.pos = rng.pos := by
  unfold Game.enemyPhase
  cases g.enemy with
  | none => rfl
  | some e => simp [Entity.update_pos_stream]

/-- The snake phase never touches the bullet. -/
@[simp] lemma Game.snakePhase_bullet (dt : ℚ) (g : Game) (rng : Rng) :
    (Game.snakePhase dt g rng).1.bullet = g.bullet := by
  unfold Game.snakePhase Game.on_game_over
  dsimp only
  split_ifs <;> rfl

/-- The snake phase never touches the enemy. -/
@[simp] lemma Game.snakePhase_enemy (dt : ℚ) (g : Game) (rng : Rng) :
    (Game.snakePhase dt g rng).1.enemy = g.enemy := by
  unfold Game.snakePhase Game.on_game_over
  dsimp only
  split_ifs <;> rfl

/-- The snake phase never touches the trap spawn timer. -/
@[simp] lemma Game.snakePhase_trap_timer (dt : ℚ) (g : Game) (rng : Rng) :
    (Game.snakePhase dt g rng).1.trap_spawn_timer = g.trap_spawn_timer := by
  unfold Game.snakePhase Game.on_game_over
  dsimp only
  split_ifs <;> rfl

/-- The bullet phase never touches the snake. -/
@[simp] lemma Game.bulletPhase_snake (dt : ℚ) (g : Game) (rng : Rng) :
    (Game.bulletPhase dt g rng).1.snake = g.snake := by
  unfold Game.bulletPhase
  cases g.bullet with
  | none => rfl
  | some b => rfl

/-- The bullet phase never touches the playing flag. -/
@[simp] lemma Game.bulletPhase_playing (dt : ℚ) (g : Game) (rng : Rng) :
    (Game.bulletPhase dt g rng).1.playing = g.playing := by
  unfold Game.bulletPhase
  cases g.bullet with
  | none => rfl
  | some b => rfl

/-- The bullet phase never touches the trap spawn timer. -/
@[simp] lemma Game.bulletPhase_trap_timer (dt : ℚ) (g : Game) (rng : Rng) :
    (Game.bulletPhase dt g rng).1.trap_spawn_timer = g.trap_spawn_timer := by
  unfold Game.bulletPhase
  cases g.bullet with
  | none => rfl
  | some b => rfl

/-- The trap phase never touches the snake. -/
@[simp] lemma Game.trapPhase_snake (dt : ℚ) (g : Game) (rng : Rng) :
    (Game.trapPhase dt g rng).1.snake = g.snake := by
  unfold Game.trapPhase
  dsimp only
  split_ifs <;> rfl

/-- The trap phase never touches the playing flag. -/
@[simp] lemma Game.trapPhase_playing (dt : ℚ) (g : Game) (rng : Rng) :
    (Game.trapPhase dt g rng).1.playing = g.playing := by
  unfold Game.trapPhase
  dsimp only
  split_ifs <;> rfl

/-- Trap spawn timer after the trap phase: countdown with carry-over. -/
lemma Game.trapPhase_timer (dt : ℚ) (g : Game) (rng : Rng) :
    (Game.trapPhase dt g rng).1.trap_spawn_timer =
      (if g.trap_spawn_timer - dt < 0
       then g.trap_spawn_timer - dt + TRAP_SPAWN_COOLDOWN
       else g.trap_spawn_timer - dt) := by
  unfold Game.trapPhase
  dsimp only
  split_ifs <;> simp

/-- Trap count after the trap phase: one more exactly when the timer fired. -/
lemma Game.trapPhase_traps_length (dt : ℚ) (g : Game) (rng : Rng) :
    (Game.trapPhase dt g rng).1.traps.length =
      g.traps.length + (if g.trap_spawn_timer - dt < 0 then 1 else 0) := by
  unfold Game.trapPhase
  dsimp only
  split_ifs <;> simp

/-- Cell the snake steps onto when its movement timer fires: the current head
displaced by the buffered direction. -/
def Snake.nextHead (s : Snake) : Position :=
  (s.head.1 + s.next_direction.as_tuple.1,
   s.head.2 + s.next_direction.as_tuple.2)

/-- Snake::update reports a move exactly when the decremented timer is
negative. -/
lemma Snake.update_snd (s : Snake) (dt : ℚ) :
    (s.update dt).2 = decide (s.move_timer - dt < 0) := by
  unfold Snake.update
  dsimp only
  split_ifs with h <;> simp [h]

/-- Snake::update on a firing timer: direction committed, head appended,
timer replenished by adding the cooldown, ammo untouched. -/
lemma Snake.update_fired_eq (s : Snake) (dt : ℚ) (h : s.move_timer - dt < 0) :
    s.update dt =
      ({ positions := s.positions ++ [s.nextHead]
         next_direction := s.next_direction
         direction := s.next_direction
         move_timer := s.move_timer - dt + SNAKE_MOVEMENT_COOLDOWN
         ammo := s.ammo }, true) := by
  unfold Snake.update
  dsimp only
  rw [if_pos h]
  rfl

/-- Snake::update on a non-firing timer: only the timer changes. -/
lemma Snake.update_not_fired_eq (s : Snake) (dt : ℚ)
    (h : ¬ s.move_timer - dt < 0) :
    s.update dt = ({ s with move_timer := s.move_timer - dt }, false) := by
  unfold Snake.update
  dsimp only
  rw [if_neg h]

/-- The head after a firing Snake::update is the stepped-to cell. -/
lemma Snake.update_fired_head (s : Snake) (dt : ℚ)
    (h : s.move_timer - dt < 0) :
    (s.update dt).1.head = s.nextHead := by
  rw [Snake.update_fired_eq s dt h]
  simp [Snake.head, List.getLastD_concat]

/-- While playing, the playing flag after Game::update is the one set by the
snake phase (the bullet and trap phases never change it). -/
lemma Game.update_playing_eq (dt : ℚ) (g : Game) (rng : Rng)
    (hp : g.playing = true) :
    (Game.update dt g rng).1.playing =
      (Game.snakePhase dt (Game.enemyPhase dt g rng).1
        (Game.enemyPhase dt g rng).2).1.playing := by
  unfold Game.update
  rw [if_pos hp]
  dsimp only
  rw [Game.trapPhase_playing, Game.bulletPhase_playing]

/-- While playing, the snake after Game::update is the one produced by the
snake phase (the bullet and trap phases never touch it). -/
lemma Game.update_snake_eq (dt : ℚ) (g : Game) (rng : Rng)
    (hp : g.playing = true) :
    (Game.update dt g rng).1.snake =
      (Game.snakePhase dt (Game.enemyPhase dt g rng).1
        (Game.enemyPhase dt g rng).2).1.snake := by
  unfold Game.update
  rw [if_pos hp]
  dsimp only
  rw [Game.trapPhase_snake, Game.bulletPhase_snake]

/-- While playing, the trap spawn timer after Game::update follows the
countdown-with-carry-over formula on the incoming timer, since the first
three phases never touch it. -/
lemma Game.update_trap_timer_eq (dt : ℚ) (g : Game) (rng : Rng)
    (hp : g.playing = true) :
    (Game.update dt g rng).1.trap_spawn_timer =
      (if g.trap_spawn_timer - dt < 0
       then g.trap_spawn_timer - dt + TRAP_SPAWN_COOLDOWN
       else g.trap_spawn_timer - dt) := by
  unfold Game.update
  rw [if_pos hp]
  dsimp only
  rw [Game.trapPhase_timer, Game.bulletPhase_trap_timer,
    Game.snakePhase_trap_timer, Game.enemyPhase_trap_timer]

/-- Snake phase when the snake does not move: only the snake's timer
changes. -/
lemma Game.snakePhase_not_fired (dt : ℚ) (g : Game) (rng : Rng)
    (h : ¬ g.snake.move_timer - dt < 0) :
    Game.snakePhase dt g rng = ({ g with snake := (g.snake.update dt).1 }, rng)
    := by
  have hs : (g.snake.update dt).2 = false := by
    rw [Snake.update_snd]
    simpa using h
  unfold Game.snakePhase
  dsimp only
  rw [hs]
  simp

/-- Playing flag after a snake phase in which the snake moved: false exactly
when the game-over disjunction holds on the moved snake. -/
lemma Game.snakePhase_fired_playing (dt : ℚ) (g : Game) (rng : Rng)
    (h : g.snake.move_timer - dt < 0) :
    (Game.snakePhase dt g rng).1.playing =
      (if Game.gameOverCond { g with snake := (g.snake.update dt).1 }
            ((g.snake.update dt).1.head) = true
       then false else g.playing) := by
  have hs : (g.snake.update dt).2 = true := by
    rw [Snake.update_snd]
    simpa using h
  unfold Game.snakePhase
  dsimp only
  rw [hs]
  simp only [if_true]
  split_ifs <;> simp_all [Game.on_game_over]

/-- Traps after a snake phase in which the snake moved: cleared exactly when
the game-over disjunction holds, untouched otherwise. -/
lemma Game.snakePhase_fired_traps (dt : ℚ) (g : Game) (rng : Rng)
    (h : g.snake.move_timer - dt < 0) :
    (Game.snakePhase dt g rng).1.traps =
      (if Game.gameOverCond { g with snake := (g.snake.update dt).1 }
            ((g.snake.update dt).1.head) = true
       then [] else g.traps) := by
  have hs : (g.snake.update dt).2 = true := by
    rw [Snake.update_snd]
    simpa using h
  unfold Game.snakePhase
  dsimp only
  rw [hs]
  simp only [if_true]
  split_ifs <;> simp_all [Game.on_game_over]

/-- Snake after a snake phase in which the snake moved: the moved snake with
ammo gained when the new head is on the food, and with the tail trimmed
otherwise. -/
lemma Game.snakePhase_fired_snake (dt : ℚ) (g : Game) (rng : Rng)
    (h : g.snake.move_timer - dt < 0) :
    (Game.snakePhase dt g rng).1.snake =
      (if (g.snake.update dt).1.head = g.food.position
       then (g.snake.update dt).1.gain_ammo
       else { (g.snake.update dt).1 with
              positions := (g.snake.update dt).1.positions.eraseIdx 0 }) := by
  have hs : (g.snake.update dt).2 = true := by
    rw [Snake.update_snd]
    simpa using h
  unfold Game.snakePhase
  dsimp only
  rw [hs]
  simp only [if_true]
  split_ifs <;> simp_all [Game.on_game_over]

/-- Food position after a snake phase in which the snake moved onto the food:
the next sample of the position oracle. -/
lemma Game.snakePhase_fired_food_eat (dt : ℚ) (g : Game) (rng : Rng)
    (h : g.snake.move_timer - dt < 0)
    (he : (g.snake.update dt).1.head = g.food.position) :
    (Game.snakePhase dt g rng).1.food.position = rng.pos 0 := by
  have hs : (g.snake.update dt).2 = true := by
    rw [Snake.update_snd]
    simpa using h
  unfold Game.snakePhase
  dsimp only
  rw [hs]
  simp only [if_true]
  split_ifs <;> simp_all [Game.on_game_over, Game.random_position, Rng.nextPos]

/-- Gaining ammo never changes the body. -/
@[simp] lemma Snake.gain_ammo_positions (s : Snake) :
    s.gain_ammo.positions = s.positions := by
  unfold Snake.gain_ammo
  split_ifs <;> rfl

/-- Gaining ammo: guarded increment below the cap. -/
lemma Snake.gain_ammo_ammo (s : Snake) :
    s.gain_ammo.ammo = (if s.ammo < MAX_AMMO then s.ammo + 1 else s.ammo) := by
  unfold Snake.gain_ammo
  split_ifs <;> rfl

/-- Steering never changes the body. -/
@[simp] lemma Snake.try_set_direction_positions (s : Snake) (d : Direction) :
    (s.try_set_direction d).positions = s.positions := by
  unfold Snake.try_set_direction
  split_ifs <;> rfl

/-- Shooting never changes the body. -/
@[simp] lemma Snake.try_shoot_positions (s : Snake) :
    s.try_shoot.1.positions = s.positions := by
  unfold Snake.try_shoot
  split_ifs <;> rfl

/-- Constant random oracle used by the concrete scenarios: every sampled
position is (3, 3) and every sampled direction is Right. -/
def rngConst : Rng :=
  ⟨fun _ => (3, 3), fun _ => Direction.Right⟩

/-- Playing state whose single-segment snake sits one cell from the right
wall, facing it, with its movement timer about to fire. -/
def gWall : Game :=
  { playing := true
    snake := { positions := [(31, 5)], next_direction := .Right,
               direction := .Right, move_timer := 0, ammo := 0 }
    food := Entity.new_food (3, 3)
    bullet := none
    traps := []
    trap_spawn_timer := 0
    enemy := none }

/-- Playing state whose snake is about to step onto the food at (5, 5). -/
def gEat : Game :=
  { playing := true
    snake := { positions := [(4, 5)], next_direction := .Right,
               direction := .Right, move_timer := 0, ammo := 0 }
    food := Entity.new_food (5, 5)
    bullet := none
    traps := []
    trap_spawn_timer := 1
    enemy := none }

/-- Game state carrying a non-zero trap spawn timer into a reset. -/
def gTimer : Game :=
  { Game.new with trap_spawn_timer := 37/10 }

/-- Fresh session, as produced at the start of main. -/
def gStart : Game :=
  (Game.set_start_state Game.new rngConst).1

/-- The fresh session updated once with dt = 31 seconds: session time passes
from 0 to 31, straddling the 30-second mark. -/
def gAfter31 : Game :=
  (Game.update 31 gStart rngConst).1

/-- The same session updated again with dt = 31 seconds: session time passes
from 31 to 62, straddling the 60-second mark. -/
def gAfter62 : Game :=
  (Game.update 31 gAfter31 rngConst).1

/-- C7: try_shoot returns nothing exactly when ammo is zero and leaves the
snake unchanged in that case; with positive ammo it decrements ammo by
exactly one and returns the cell one step ahead of the head in the current
facing direction, together with that direction. -/
theorem C7_try_shoot (s : Snake) :
    s.try_shoot =
      (if s.ammo = 0 then s else { s with ammo := s.ammo - 1 },
       if s.ammo = 0 then none
       else some (s.position_one_step_forward, s.direction)) := by
  unfold Snake.try_shoot
  rcases Nat.eq_zero_or_pos s.ammo with h | h
  · simp [h]
  · simp [h, Nat.pos_iff_ne_zero.mp h]

/-- C8: starting at or below the cap, any sequence of ammo gains stays at or
below the cap, for the main.rs snake (guarded unit increments capped at
MAX_AMMO) and for the entities.rs snake (saturating adds capped at its own
max_ammo). -/
theorem C8_gain_ammo_bounded :
    (∀ (s : Snake) (n : ℕ), s.ammo ≤ MAX_AMMO →
      (Snake.gain_ammo^[n] s).ammo ≤ MAX_AMMO) ∧
    (∀ (s : RustSnakeEntities.Snake) (amounts : List ℕ),
      s.ammo ≤ s.max_ammo →
      (amounts.foldl RustSnakeEntities.Snake.gain_ammo s).ammo ≤
        (amounts.foldl RustSnakeEntities.Snake.gain_ammo s).max_ammo) := by
  constructor
  · intro s n
    induction n generalizing s with
    | zero => intro h; simpa using h
    | succ n ih =>
      intro h
      rw [Function.iterate_succ_apply]
      apply ih
      unfold Snake.gain_ammo
      split_ifs with hlt
      · simpa using hlt
      · exact h
  · intro s amounts
    induction amounts generalizing s with
    | nil => intro h; simpa using h
    | cons a l ih =>
      intro _
      rw [List.foldl_cons]
      apply ih
      unfold RustSnakeEntities.Snake.gain_ammo
      exact min_le_right _ _

/-- Concrete instance of the ammo-cap theorem: seven unit gains from empty,
and saturating gains of 3 then 9 from empty with cap 5. -/
theorem C8_witness :
    (Snake.gain_ammo^[7] (Snake.new (0, 0))).ammo ≤ MAX_AMMO ∧
    ([3, 9].foldl RustSnakeEntities.Snake.gain_ammo
        (RustSnakeEntities.Snake.new (0, 0) 5)).ammo ≤
      ([3, 9].foldl RustSnakeEntities.Snake.gain_ammo
        (RustSnakeEntities.Snake.new (0, 0) 5)).max_ammo :=
  ⟨C8_gain_ammo_bounded.1 _ 7 (by decide),
   C8_gain_ammo_bounded.2 _ [3, 9] (by decide)⟩

/-- C9: every countdown timer in the program (the movement strategies, the
snake's move timer, the trap spawner) decreases by the elapsed time, fires
exactly when the decremented value is below zero, and is then replenished by
adding the cooldown rather than being reset to it; in particular the trap
spawner with cooldown 5.0 and timer 0.0, updated with elapsed time 5.1,
fires once and leaves the timer at 5.0 - 5.1 = -0.1. -/
theorem C9_countdown_timers :
    (∀ (m : Movement) (dt : ℚ) (rng : Rng),
      (m.apply dt rng).2.1.timer =
        (if m.timer - dt < 0 then m.timer - dt + m.cooldown
         else m.timer - dt) ∧
      (m.apply dt rng).1.isSome = decide (m.timer - dt < 0)) ∧
    (∀ (s : Snake) (dt : ℚ),
      (s.update dt).1.move_timer =
        (if s.move_timer - dt < 0
         then s.move_timer - dt + SNAKE_MOVEMENT_COOLDOWN
         else s.move_timer - dt) ∧
      (s.update dt).2 = decide (s.move_timer - dt < 0)) ∧
    (∀ (g : Game) (dt : ℚ) (rng : Rng),
      (Game.trapPhase dt g rng).1.trap_spawn_timer =
        (if g.trap_spawn_timer - dt < 0
         then g.trap_spawn_timer - dt + TRAP_SPAWN_COOLDOWN
         else g.trap_spawn_timer - dt) ∧
      (Game.trapPhase dt g rng).1.traps.length =
        g.traps.length + (if g.trap_spawn_timer - dt < 0 then 1 else 0)) ∧
    ((Game.trapPhase (51/10) Game.new rngConst).1.trap_spawn_timer = -1/10 ∧
     (Game.trapPhase (51/10) Game.new rngConst).1.traps.length = 1 ∧
     TRAP_SPAWN_COOLDOWN = 5) := by
  refine ⟨?_, ?_, ?_, ?_, ?_, rfl⟩
  · intro m dt rng
    unfold Movement.apply
    dsimp only
    split_ifs with h
    · cases m.kind <;> simp [h]
    · simp [h]
  · intro s dt
    refine ⟨?_, Snake.update_snd s dt⟩
    by_cases h : s.move_timer - dt < 0
    · rw [Snake.update_fired_eq s dt h, if_pos h]
    · rw [Snake.update_not_fired_eq s dt h, if_neg h]
  · intro g dt rng
    exact ⟨Game.trapPhase_timer dt g rng, Game.trapPhase_traps_length dt g rng⟩
  · rw [Game.trapPhase_timer]
    norm_num [Game.new, TRAP_SPAWN_COOLDOWN]
  · rw [Game.trapPhase_traps_length]
    norm_num [Game.new]

/-- C3 counterexample: reset on a game whose trap spawn timer is 3.7 leaves
that timer at 3.7, not zero — set_start_state does not reset it. -/
theorem C3_counterexample :
    (Game.set_start_state gTimer rngConst).1.trap_spawn_timer = 37/10 ∧
    (37 : ℚ)/10 ≠ 0 := by
  constructor
  · rfl
  · norm_num

/-- C3 amended: reset produces a playing state with a fresh single-segment
snake at (0, 16) holding 0 ammo, food at the next oracle cell, no bullet, no
traps, and a fresh enemy at (16, 16) facing Down; the trap spawn timer is
carried over unchanged (and the trap spawn cooldown is a global constant;
the code tracks no total elapsed time). -/
theorem C3_reset (g : Game) (rng : Rng) :
    (Game.set_start_state g rng).1.playing = true ∧
    (Game.set_start_state g rng).1.snake = Snake.new (0, 16) ∧
    (Game.set_start_state g rng).1.snake.positions = [(0, 16)] ∧
    (Game.set_start_state g rng).1.snake.ammo = 0 ∧
    (Game.set_start_state g rng).1.food = Entity.new_food (rng.pos 0) ∧
    (Game.set_start_state g rng).1.bullet = none ∧
    (Game.set_start_state g rng).1.traps = [] ∧
    (Game.set_start_state g rng).1.enemy =
      some (Entity.new_enemy (16, 16) Direction.Down) ∧
    (Game.set_start_state g rng).1.trap_spawn_timer = g.trap_spawn_timer := by
  unfold Game.set_start_state Game.random_position Rng.nextPos
  norm_num [GRID_SIZE, Snake.new]

/-- C10: a single update call in which the snake hits the wall ends with
playing already false, yet with the later steps of the same call having run:
the tail was trimmed (positions shrank back to one segment, now holding the
out-of-bounds head) and the trap spawner fired after the transition had
cleared the traps, leaving a non-empty trap list. -/
theorem C10_steps_after_game_over :
    (Game.update (1/10) gWall rngConst).1.playing = false ∧
    (Game.update (1/10) gWall rngConst).1.traps.length = 1 ∧
    (Game.update (1/10) gWall rngConst).1.snake.positions = [(32, 5)] := by
  norm_num [Game.update, Game.enemyPhase, Game.snakePhase, Game.bulletPhase,
    Game.trapPhase, Game.gameOverCond, Game.is_outside_grid, Game.on_game_over,
    Game.random_position, Rng.nextPos, Snake.update, Snake.head,
    Snake.self_collision, Snake.position_one_step_forward, Snake.gain_ammo,
    Direction.as_tuple, Entity.new_trap, Entity.new_food, gWall, rngConst,
    SNAKE_MOVEMENT_COOLDOWN, TRAP_SPAWN_COOLDOWN, MAX_AMMO, GRID_SIZE]

/-- C1 counterexample: gEat is a playing state whose snake's update moves it
onto the food, yet the update call grants exactly 1 ammo, not 3. -/
theorem C1_counterexample :
    gEat.playing = true ∧
    (gEat.snake.update (1/10)).2 = true ∧
    (gEat.snake.update (1/10)).1.head = gEat.food.position ∧
    (Game.update (1/10) gEat rngConst).1.snake.ammo = 1 ∧
    (Game.update (1/10) gEat rngConst).1.snake.ammo ≠ 3 := by
  norm_num [Game.update, Game.enemyPhase, Game.snakePhase, Game.bulletPhase,
    Game.trapPhase, Game.gameOverCond, Game.is_outside_grid, Game.on_game_over,
    Game.random_position, Rng.nextPos, Snake.update, Snake.head,
    Snake.self_collision, Snake.position_one_step_forward, Snake.gain_ammo,
    Direction.as_tuple, Entity.new_trap, Entity.new_food, gEat, rngConst,
    SNAKE_MOVEMENT_COOLDOWN, TRAP_SPAWN_COOLDOWN, MAX_AMMO, GRID_SIZE]

/-- C1 amended: when a playing update moves the snake and the new head is on
the food's position, the snake phase relocates the food to the next random
cell and the whole update grants the snake exactly 1 ammo, saturating at
MAX_AMMO. -/
theorem C1_eat_food (g : Game) (dt : ℚ) (rng : Rng)
    (hp : g.playing = true)
    (hf2 : (g.snake.update dt).2 = true)
    (he : (g.snake.update dt).1.head = g.food.position) :
    (Game.snakePhase dt (Game.enemyPhase dt g rng).1
        (Game.enemyPhase dt g rng).2).1.food.position = rng.pos 0 ∧
    (Game.update dt g rng).1.snake.ammo =
      (if g.snake.ammo < MAX_AMMO then g.snake.ammo + 1
       else g.snake.ammo) := by
  have hf : g.snake.move_timer - dt < 0 := by
    have h := Snake.update_snd g.snake dt
    rw [hf2] at h
    exact of_decide_eq_true h.symm
  have hsn : (Game.enemyPhase dt g rng).1.snake = g.snake :=
    Game.enemyPhase_snake dt g rng
  have hfd : (Game.enemyPhase dt g rng).1.food = g.food :=
    Game.enemyPhase_food dt g rng
  have hf1 : (Game.enemyPhase dt g rng).1.snake.move_timer - dt < 0 := by
    rw [hsn]; exact hf
  have he1 : ((Game.enemyPhase dt g rng).1.snake.update dt).1.head =
      (Game.enemyPhase dt g rng).1.food.position := by
    rw [hsn, hfd]; exact he
  constructor
  · rw [Game.snakePhase_fired_food_eat _ _ _ hf1 he1,
      Game.enemyPhase_pos_stream]
  · rw [Game.update_snake_eq dt g rng hp,
      Game.snakePhase_fired_snake _ _ _ hf1, if_pos he1, hsn,
      Snake.gain_ammo_ammo, Snake.update_fired_eq _ _ hf]

/-- Concrete instance of the amended food claim, at the gEat scenario. -/
theorem C1_witness :
    (Game.snakePhase (1/10) (Game.enemyPhase (1/10) gEat rngConst).1
        (Game.enemyPhase (1/10) gEat rngConst).2).1.food.position =
      rngConst.pos 0 ∧
    (Game.update (1/10) gEat rngConst).1.snake.ammo =
      (if gEat.snake.ammo < MAX_AMMO then gEat.snake.ammo + 1
       else gEat.snake.ammo) :=
  C1_eat_food gEat (1/10) rngConst rfl
    (by norm_num [gEat, Snake.update, SNAKE_MOVEMENT_COOLDOWN])
    (by norm_num [gEat, Snake.update, Snake.head,
      Snake.position_one_step_forward, Direction.as_tuple, Entity.new_food,
      SNAKE_MOVEMENT_COOLDOWN])

/-- C2 counterexample: a fresh session updated with dt = 31 (session time
passing 0 to 31, straddling 30 s) and again with dt = 31 (31 to 62,
straddling 60 s) stays in play, and the trap timer is replenished by exactly
5 on both firings: the spawn cooldown is never set to a strictly smaller
constant, because no threshold logic exists in the code. -/
theorem C2_counterexample :
    gStart.trap_spawn_timer = 0 ∧
    gAfter31.playing = true ∧
    gAfter62.playing = true ∧
    gAfter31.trap_spawn_timer = -26 ∧
    gAfter62.trap_spawn_timer = -52 ∧
    gAfter31.trap_spawn_timer - (gStart.trap_spawn_timer - 31) = 5 ∧
    gAfter62.trap_spawn_timer - (gAfter31.trap_spawn_timer - 31) = 5 := by
  norm_num [gAfter62, gAfter31, gStart, Game.update, Game.enemyPhase,
    Game.snakePhase, Game.bulletPhase, Game.trapPhase, Game.gameOverCond,
    Game.is_outside_grid, Game.on_game_over, Game.random_position,
    Game.set_start_state, Game.new, Rng.nextPos, Rng.nextDir, Snake.update,
    Snake.head, Snake.new, Snake.self_collision,
    Snake.position_one_step_forward, Snake.gain_ammo, Movement.apply,
    Entity.update, Entity.new_trap, Entity.new_food, Entity.new_enemy,
    RandomMovement.new, Direction.as_tuple, rngConst,
    SNAKE_MOVEMENT_COOLDOWN, TRAP_SPAWN_COOLDOWN, ENEMY_MOVEMENT_COOLDOWN,
    MAX_AMMO, GRID_SIZE]

/-- C2 amended: while playing, update(dt) always treats the trap spawner with
the single fixed cooldown TRAP_SPAWN_COOLDOWN = 5: the timer decreases by dt
and, when negative, is replenished by adding exactly that constant,
independent of how much session time has elapsed; the code has no
total_elapsed_seconds and no 30 s / 60 s thresholds. -/
theorem C2_trap_cooldown_constant (g : Game) (dt : ℚ) (rng : Rng)
    (hp : g.playing = true) :
    (Game.update dt g rng).1.trap_spawn_timer =
      (if g.trap_spawn_timer - dt < 0
       then g.trap_spawn_timer - dt + TRAP_SPAWN_COOLDOWN
       else g.trap_spawn_timer - dt) ∧
    TRAP_SPAWN_COOLDOWN = 5 :=
  ⟨Game.update_trap_timer_eq dt g rng hp, rfl⟩

/-- Concrete instance of the constant-cooldown theorem at the fresh session
with dt = 31. -/
theorem C2_witness :
    (Game.update 31 gStart rngConst).1.trap_spawn_timer =
      (if gStart.trap_spawn_timer - 31 < 0
       then gStart.trap_spawn_timer - 31 + TRAP_SPAWN_COOLDOWN
       else gStart.trap_spawn_timer - 31) ∧
    TRAP_SPAWN_COOLDOWN = 5 :=
  C2_trap_cooldown_constant gStart 31 rngConst rfl

/-- Length of the first element dropped from a list with one appended
element: unchanged overall. -/
lemma length_eraseIdx_zero_append (l : List Position) (x : Position) :
    ((l ++ [x]).eraseIdx 0).length = l.length := by
  cases l <;> simp

/-- C5: across a playing update in which the snake moved, the body length is
unchanged when the new head misses the food and grows by exactly one when it
lands on it. -/
theorem C5_length (g : Game) (dt : ℚ) (rng : Rng)
    (hp : g.playing = true) (hf2 : (g.snake.update dt).2 = true) :
    (Game.update dt g rng).1.snake.positions.length =
      (if (g.snake.update dt).1.head = g.food.position
       then g.snake.positions.length + 1
       else g.snake.positions.length) := by
  have hf : g.snake.move_timer - dt < 0 := by
    have h := Snake.update_snd g.snake dt
    rw [hf2] at h
    exact of_decide_eq_true h.symm
  have hsn := Game.enemyPhase_snake dt g rng
  have hfd := Game.enemyPhase_food dt g rng
  have hf1 : (Game.enemyPhase dt g rng).1.snake.move_timer - dt < 0 := by
    rw [hsn]; exact hf
  rw [Game.update_snake_eq dt g rng hp, Game.snakePhase_fired_snake _ _ _ hf1,
    hsn, hfd]
  split_ifs with he
  · rw [Snake.gain_ammo_positions, Snake.update_fired_eq _ _ hf]
    simp
  · rw [Snake.update_fired_eq _ _ hf]
    exact length_eraseIdx_zero_append g.snake.positions g.snake.nextHead

/-- Concrete instance of the length theorem at the gEat scenario (the snake
eats, so the length grows from 1 to 2). -/
theorem C5_witness :
    (Game.update (1/10) gEat rngConst).1.snake.positions.length =
      (if (gEat.snake.update (1/10)).1.head = gEat.food.position
       then gEat.snake.positions.length + 1
       else gEat.snake.positions.length) :=
  C5_length gEat (1/10) rngConst rfl
    (by norm_num [gEat, Snake.update, SNAKE_MOVEMENT_COOLDOWN])

/-- C4: across a playing update in which the snake moved, the game ends
(playing becomes false, and the traps are cleared at the transition) exactly
when the new head is outside the 32 by 32 grid, or collides with the body,
or sits on a trap, or sits on the (already-moved) enemy; and the corner
cells classify as the spec demands. -/
theorem C4_game_over_iff :
    (∀ (g : Game) (dt : ℚ) (rng : Rng), g.playing = true →
      (g.snake.update dt).2 = true →
      (((Game.update dt g rng).1.playing = false) ↔
        (Game.is_outside_grid (g.snake.update dt).1.head = true ∨
         (g.snake.update dt).1.self_collision = true ∨
         (∃ t ∈ g.traps, t.position = (g.snake.update dt).1.head) ∨
         (∃ e, (Game.enemyPhase dt g rng).1.enemy = some e ∧
               e.position = (g.snake.update dt).1.head))) ∧
      (((Game.update dt g rng).1.playing = false) →
        (Game.snakePhase dt (Game.enemyPhase dt g rng).1
          (Game.enemyPhase dt g rng).2).1.traps = [])) ∧
    Game.is_outside_grid (32, 5) = true ∧
    Game.is_outside_grid (-1, 5) = true ∧
    Game.is_outside_grid (31, 31) = false ∧
    Game.is_outside_grid (0, 0) = false := by
  refine ⟨?_, by decide, by decide, by decide, by decide⟩
  intro g dt rng hp hf2
  have hf : g.snake.move_timer - dt < 0 := by
    have h := Snake.update_snd g.snake dt
    rw [hf2] at h
    exact of_decide_eq_true h.symm
  have hsn := Game.enemyPhase_snake dt g rng
  have htrp := Game.enemyPhase_traps dt g rng
  have hply := Game.enemyPhase_playing dt g rng
  have hf1 : (Game.enemyPhase dt g rng).1.snake.move_timer - dt < 0 := by
    rw [hsn]; exact hf
  have hpl := Game.update_playing_eq dt g rng hp
  rw [Game.snakePhase_fired_playing _ _ _ hf1, hsn] at hpl
  have htraps := Game.snakePhase_fired_traps dt
    (Game.enemyPhase dt g rng).1 (Game.enemyPhase dt g rng).2 hf1
  rw [hsn] at htraps
  have hBD : (Game.gameOverCond
      { (Game.enemyPhase dt g rng).1 with snake := (g.snake.update dt).1 }
      (g.snake.update dt).1.head = true) ↔
      (Game.is_outside_grid (g.snake.update dt).1.head = true ∨
       (g.snake.update dt).1.self_collision = true ∨
       (∃ t ∈ g.traps, t.position = (g.snake.update dt).1.head) ∨
       (∃ e, (Game.enemyPhase dt g rng).1.enemy = some e ∧
             e.position = (g.snake.update dt).1.head)) := by
    unfold Game.gameOverCond
    cases he : (Game.enemyPhase dt g rng).1.enemy <;>
      simp [he, htrp, List.any_eq_true, decide_eq_true_eq, or_assoc]
  constructor
  · rw [hpl]
    split_ifs with hB
    · exact iff_of_true rfl (hBD.mp hB)
    · rw [hply, hp]
      exact iff_of_false (by simp) fun hD => hB (hBD.mpr hD)
  · intro hfalse
    rw [hpl] at hfalse
    rw [htraps]
    split_ifs with hB
    · rfl
    · rw [if_neg hB, hply, hp] at hfalse
      cases hfalse

/-- Concrete instance of the game-over theorem at the gWall scenario (the
snake steps out through the right wall). -/
theorem C4_witness :
    (((Game.update (1/10) gWall rngConst).1.playing = false) ↔
      (Game.is_outside_grid (gWall.snake.update (1/10)).1.head = true ∨
       (gWall.snake.update (1/10)).1.self_collision = true ∨
       (∃ t ∈ gWall.traps, t.position = (gWall.snake.update (1/10)).1.head) ∨
       (∃ e, (Game.enemyPhase (1/10) gWall rngConst).1.enemy = some e ∧
             e.position = (gWall.snake.update (1/10)).1.head))) ∧
    (((Game.update (1/10) gWall rngConst).1.playing = false) →
      (Game.snakePhase (1/10) (Game.enemyPhase (1/10) gWall rngConst).1
        (Game.enemyPhase (1/10) gWall rngConst).2).1.traps = []) :=
  C4_game_over_iff.1 gWall (1/10) rngConst rfl
    (by norm_num [gWall, Snake.update, SNAKE_MOVEMENT_COOLDOWN])

/-- Game::update preserves a non-empty snake body. -/
lemma Game.update_positions_ne_nil (dt : ℚ) (g : Game) (rng : Rng)
    (h : g.snake.positions ≠ []) :
    (Game.update dt g rng).1.snake.positions ≠ [] := by
  by_cases hp : g.playing = true
  · rw [Game.update_snake_eq dt g rng hp]
    have hsn := Game.enemyPhase_snake dt g rng
    by_cases hf : (Game.enemyPhase dt g rng).1.snake.move_timer - dt < 0
    · have hfg : g.snake.move_timer - dt < 0 := by rw [hsn] at hf; exact hf
      rw [Game.snakePhase_fired_snake _ _ _ hf, hsn]
      have hfd := Game.enemyPhase_food dt g rng
      split_ifs with he
      · rw [Snake.gain_ammo_positions, Snake.update_fired_eq _ _ hfg]
        simp
      · rw [Snake.update_fired_eq _ _ hfg]
        dsimp only
        rcases List.exists_cons_of_ne_nil h with ⟨p, rest, hpr⟩
        rw [hpr]
        simp
    · rw [Game.snakePhase_not_fired _ _ _ hf]
      dsimp only
      rw [hsn] at hf ⊢
      rw [Snake.update_not_fired_eq _ _ hf]
      exact h
  · unfold Game.update
    rw [if_neg hp]
    exact h

/-- Game::handle_key_press preserves a non-empty snake body. -/
lemma Game.handle_key_positions_ne_nil (key : Key) (g : Game) (rng : Rng)
    (h : g.snake.positions ≠ []) :
    (Game.handle_key_press key g rng).1.snake.positions ≠ [] := by
  unfold Game.handle_key_press
  split_ifs with hp
  · cases key
    all_goals try simpa using h
    all_goals
      dsimp only
      cases hsh : g.snake.try_shoot.2 <;> simp [hsh, h]
  · cases key
    all_goals try simpa using h
    all_goals
      simp [Game.set_start_state, Snake.new, Game.random_position,
        Rng.nextPos]

/-- C6: in every state reachable from the initial state through update and
key-press calls, the snake's body is non-empty, so the panicking empty-body
branch of Snake::head is unreachable. -/
theorem C6_snake_nonempty (g : Game) (h : Reachable g) :
    g.snake.positions ≠ [] := by
  induction h with
  | init rng =>
    simp [Game.set_start_state, Snake.new, Game.random_position, Rng.nextPos]
  | step_update g dt rng hr ih => exact Game.update_positions_ne_nil dt g rng ih
  | step_key g key rng hr ih =>
    exact Game.handle_key_positions_ne_nil key g rng ih

/-- Concrete instance of the non-empty-body invariant at the initial state. -/
theorem C6_witness :
    (Game.set_start_state Game.new rngConst).1.snake.positions ≠ [] :=
  C6_snake_nonempty _ (Reachable.init rngConst)

end RustSnake
